import Mathlib

/-! # AcademiCO frontend: student dashboard and application shell

A shallow embedding of `frontend/src/pages/StudentDashboard.jsx` and
`frontend/src/App.js`.

* JSON `null` is `none`; a JSON number is a finite IEEE 754 double, which is a
  rational number, so a nullable score is an `Option ℚ`.  Comparisons of finite
  doubles are exact, hence `>=` on scores is `≥` on `ℚ`.
* Arithmetic on doubles is not exact: `F64.round` is the binary64
  round-to-nearest, ties-to-even rounding of an exact value, `F64.add` the double
  addition and `F64.lit` the value of a decimal literal.
* React state is passed explicitly; calls to collaborators (toasts, HTTP requests)
  are recorded in an effect log.
-/

/-! ## Binary64 arithmetic on exact values -/

namespace F64

/-- Halve `n` until it is below 2, counting the halvings (at most `fuel` of them). -/
def log2Fuel : Nat → Nat → Nat
  | 0, _ => 0
  | fuel + 1, n => if n < 2 then 0 else log2Fuel fuel (n / 2) + 1

/-- The position of the leading bit of `n`: the largest `k` with `2 ^ k ≤ n`, for positive `n`. -/
def log2 (n : Nat) : Nat := log2Fuel n n

/-- The largest `e` with `2 ^ e ≤ p / d`, for positive `p` and `d`. -/
def ilog2 (p d : Nat) : Int :=
  let e0 : Int := (log2 p : Int) - (log2 d : Int)
  if d * 2 ^ e0.toNat ≤ p * 2 ^ (-e0).toNat then e0 else e0 - 1

/-- The integer nearest to `a / b`, a tie going to the even neighbour. -/
def roundDiv (a b : Nat) : Nat :=
  if 2 * (a % b) < b then a / b
  else if b < 2 * (a % b) then a / b + 1
  else a / b + (a / b) % 2

/-- The exact value `m * 2 ^ s`. -/
def scale (m : Int) (s : Int) : ℚ :=
  mkRat (m * 2 ^ s.toNat) (2 ^ (-s).toNat)

/-- Round-to-nearest, ties-to-even onto the binary64 grid: 53 significant bits,
least exponent `-1022` (below it the spacing stays `2 ^ -1074`).  Magnitudes of
`2 ^ 1024` and above, which overflow to `Infinity`, are outside this model. -/
def round (q : ℚ) : ℚ :=
  if q.num = 0 then 0 else
  let p := q.num.natAbs
  let s := max (ilog2 p q.den) (-1022) - 52
  let m := roundDiv (p * 2 ^ (-s).toNat) (q.den * 2 ^ s.toNat)
  scale (q.num.sign * m) s

/-- The double denoted by the decimal literal `m / 10 ^ k` (`33.33` is `lit 3333 2`). -/
def lit (m : Int) (k : Nat) : ℚ := round (mkRat m (10 ^ k))

/-- Double addition `x + y` of two finite doubles. -/
def add (x y : ℚ) : ℚ := round (x + y)

end F64

namespace Math

/-- `Math.round`: the integer closest to `x`, a tie going towards `+∞`. -/
def round (x : ℚ) : ℤ := ⌊x + 1 / 2⌋

end Math

/-! ## `StudentDashboard.jsx` -/

namespace StudentDashboard

/-- The grade record held in the `grade` state, as `loadGrade` stores it from
`GET /grades/student/course/:id`. -/
structure Grade where
  corte1 : Option ℚ
  corte2 : Option ℚ
  corte3 : Option ℚ
  final_grade : Option ℚ
deriving DecidableEq

/-- `calculateProgress` (lines 97-103). -/
def calculateProgress (corte1 corte2 corte3 : Option ℚ) : ℤ :=
  let completed : ℚ := 0
  let completed := if corte1 ≠ none then F64.add completed (F64.lit 3333 2) else completed
  let completed := if corte2 ≠ none then F64.add completed (F64.lit 3333 2) else completed
  let completed := if corte3 ≠ none then F64.add completed (F64.lit 3334 2) else completed
  Math.round completed

/-- The count in "Cortes evaluados: n de 3" (line 318). -/
def evaluatedCount (grade : Grade) : Nat :=
  ([grade.corte1, grade.corte2, grade.corte3].filter (fun c => c ≠ none)).length

/-- The reference definition of progress, in exact decimal arithmetic: each set
corte adds its share (33.33, 33.33, 33.34) and the sum is rounded to the nearest
whole percent. -/
def progressReference (c1 c2 c3 : Option ℚ) : ℤ :=
  round ((if c1 ≠ none then (3333 / 100 : ℚ) else 0)
    + (if c2 ≠ none then (3333 / 100 : ℚ) else 0)
    + (if c3 ≠ none then (3334 / 100 : ℚ) else 0))

/-! ### The grades tab (lines 237-338) -/

/-- The `variant` prop of a `Badge`. -/
inductive Variant where
  | default
  | outline
  | destructive
deriving DecidableEq, Repr

/-- A child of a JSX element: a string, or a number rendered as its digits. -/
inductive Child where
  | text (s : String)
  | number (x : ℚ)
deriving DecidableEq

/-- A rendered `Badge`: its variant and its child. -/
structure Badge where
  variant : Variant
  child : Child
deriving DecidableEq

/-- The badge of corte 1 (lines 251-253). -/
def corte1Badge (grade : Grade) : Badge :=
  { variant := if grade.corte1 ≠ none then .default else .outline
    child := match grade.corte1 with
      | some x => .number x
      | none => .text "Pendiente" }

/-- The badge of corte 2 (lines 261-263). -/
def corte2Badge (grade : Grade) : Badge :=
  { variant := if grade.corte2 ≠ none then .default else .outline
    child := match grade.corte2 with
      | some x => .number x
      | none => .text "Pendiente" }

/-- The badge of corte 3 (lines 271-273). -/
def corte3Badge (grade : Grade) : Badge :=
  { variant := if grade.corte3 ≠ none then .default else .outline
    child := match grade.corte3 with
      | some x => .number x
      | none => .text "Pendiente" }

/-- The labels of the three cortes (lines 250, 260, 270). -/
def corteLabels : List String := ["Corte 1 (30%)", "Corte 2 (35%)", "Corte 3 (35%)"]

/-- Read the decimal digits at the head of `cs`, continuing the number `acc`. -/
def readDigits (acc : Nat) : List Char → Nat
  | [] => acc
  | c :: cs => if c.isDigit then readDigits (acc * 10 + (c.toNat - 48)) cs else acc

/-- The number written after the first opening parenthesis in `cs`. -/
def percentAfterParen : List Char → Nat
  | [] => 0
  | c :: cs => if c = '(' then readDigits 0 cs else percentAfterParen cs

/-- The weight, in percent, that a corte label announces. -/
def labelledWeight (label : String) : Nat := percentAfterParen label.toList

/-- The "Nota Final" badge (lines 281-291). -/
def finalGradeBadge (grade : Grade) : Badge :=
  match grade.final_grade with
  | some x => { variant := if x ≥ 3 then .default else .destructive, child := .number x }
  | none => { variant := .outline, child := .text "Pendiente" }

/-- The percentage of the progress card (lines 306 and 309). -/
def progressShown (grade : Grade) : ℤ :=
  calculateProgress grade.corte1 grade.corte2 grade.corte3

/-- The "Estado" badge (lines 323-325). -/
def statusBadge (grade : Grade) : Badge :=
  { variant := if grade.final_grade ≠ none then .default else .outline
    child := .text (if grade.final_grade ≠ none then "Completo" else "En Progreso") }

/-- The "Resultado" row (lines 327-334), rendered only when `final_grade !== null`. -/
def resultBadge (grade : Grade) : Option Badge :=
  match grade.final_grade with
  | some x => some { variant := if x ≥ 3 then .default else .destructive
                     child := .text (if x ≥ 3 then "Aprobado" else "Reprobado") }
  | none => none

/-! ### Notifications (lines 105, 119-126) -/

/-- A notification as delivered by `GET /notifications`. -/
structure Notification where
  id : String
  message : String
  created_at : String
  read : Bool
deriving DecidableEq

/-- `unreadCount` (line 105). -/
def unreadCount (notifications : List Notification) : Nat :=
  (notifications.filter (fun n => !n.read)).length

/-- The child of the notification badge on the bell (lines 121-125): rendered
only when `unreadCount > 0`. -/
def notificationBadge (notifications : List Notification) : Option Nat :=
  if unreadCount notifications > 0 then some (unreadCount notifications) else none

/-! ### Enrollment (lines 64-79) -/

/-- The body of an error response. -/
structure ErrorData where
  detail : Option String

/-- The response carried by a failed request. -/
structure ErrorResponse where
  data : Option ErrorData

/-- The error a rejected `api.post` throws; `response` is absent when no
response arrived. -/
structure AxiosError where
  response : Option ErrorResponse

/-- The value of `error.response?.data?.detail`. -/
def AxiosError.detail (error : AxiosError) : Option String :=
  match error.response with
  | none => none
  | some response =>
    match response.data with
    | none => none
    | some data => data.detail

/-- The value of `detail || fallback`: an absent or empty detail is falsy. -/
def orDefault (detail : Option String) (fallback : String) : String :=
  match detail with
  | some s => if s ≠ "" then s else fallback
  | none => fallback

/-- The state variables `handleEnroll` reads and writes. -/
structure State where
  loading : Bool
  enrollDialogOpen : Bool
  accessCode : String
deriving DecidableEq

/-- A call to a collaborator, in the order made. -/
inductive Effect where
  | preventDefault
  | post (url : String) (access_code : String)
  | toastSuccess (message : String)
  | toastError (message : String)
  | loadCourses
deriving DecidableEq

/-- `handleEnroll` (lines 64-79).  `post` is the outcome of
`api.post("/courses/enroll", ...)` for a given access code: `.ok` when the
promise resolves, `.error` when it rejects.  Returns the state after the handler
and the calls it made. -/
def handleEnroll (s : State) (post : String → Except AxiosError Unit) :
    State × List Effect :=
  let s₁ := { s with loading := true }
  let request := [Effect.preventDefault, Effect.post "/courses/enroll" s.accessCode]
  match post s.accessCode with
  | .ok _ =>
    let s₂ := { s₁ with enrollDialogOpen := false, accessCode := "" }
    ({ s₂ with loading := false },
      request ++ [Effect.toastSuccess "Inscripción exitosa", Effect.loadCourses])
  | .error error =>
    ({ s₁ with loading := false },
      request ++ [Effect.toastError (orDefault error.detail "Error al inscribirse")])

end StudentDashboard

/-! ## `App.js` -/

namespace App

/-- A request configuration: its headers, and every other field (`url`,
`method`, `data`, ...) gathered in `rest`. -/
structure Config (ρ : Type) where
  headers : String → Option String
  rest : ρ

/-- The request interceptor (lines 22-28).  `token` is the value of
`localStorage.getItem("token")`, `none` when the key is absent. -/
def requestInterceptor {ρ : Type} (token : Option String) (config : Config ρ) : Config ρ :=
  match token with
  | some t =>
    if t ≠ "" then
      { config with headers := Function.update config.headers "Authorization" (some ("Bearer " ++ t)) }
    else config
  | none => config

/-- The authenticated principal held in the `user` state (the body of `/auth/me`). -/
structure User where
  id : String
  role : String
  full_name : String
deriving DecidableEq

/-- The elements the routes render. -/
inductive Element where
  | Landing (user : Option User)
  | Login
  | Register
  | ForgotPassword
  | ResetPassword
  | Navigate (target : String)
  | TeacherDashboard (user : User)
  | StudentDashboard (user : User)
deriving DecidableEq

/-- The paths of the routes (lines 65-87). -/
inductive Path where
  | root
  | login
  | register
  | forgotPassword
  | resetPassword (token : String)
  | dashboard
deriving DecidableEq

/-- The `element` of each route (lines 65-87), for the current `user` state. -/
def routeElement (user : Option User) : Path → Element
  | .root => .Landing user
  | .login =>
    match user with
    | some _ => .Navigate "/dashboard"
    | none => .Login
  | .register =>
    match user with
    | some _ => .Navigate "/dashboard"
    | none => .Register
  | .forgotPassword => .ForgotPassword
  | .resetPassword _ => .ResetPassword
  | .dashboard =>
    match user with
    | none => .Navigate "/login"
    | some u => if u.role = "teacher" then .TeacherDashboard u else .StudentDashboard u

end App

/-! ## The grade engine behind the API

The dashboard displays `final_grade` as the backend delivers it.  The backend is
not part of `frontend/src`; the definitions below follow the specification of
the Grade Computation Engine and the Grade Record Store. -/

namespace Engine

open StudentDashboard

/-- Modelled from the spec: rounding to one decimal place, half up, of the Grade
Computation Engine; the backend that computes `final_grade` is missing from the
sources. -/
def round1 (x : ℚ) : ℚ := (⌊x * 10 + 1 / 2⌋ : ℤ) / 10

/-- Modelled from the spec: `final_grade(c1, c2, c3)` of the Grade Computation
Engine (backend, missing from the sources): unset if any corte is unset,
otherwise `c1*0.30 + c2*0.35 + c3*0.35` rounded to one decimal place. -/
def final_grade (c1 c2 c3 : Option ℚ) : Option ℚ :=
  match c1, c2, c3 with
  | some a, some b, some c => some (round1 (a * (30 / 100) + b * (35 / 100) + c * (35 / 100)))
  | _, _, _ => none

/-- Modelled from the spec: the failures of the engine (backend, missing from the
sources). -/
inductive Failure where
  | NotFound
  | AlreadyEnrolled
  | InvalidScore
  | Forbidden
deriving DecidableEq

/-- Modelled from the spec: the corte index (1-3) of `setCorte` (backend, missing
from the sources). -/
inductive CortIndex where
  | corte1
  | corte2
  | corte3
deriving DecidableEq

/-- Modelled from the spec: the grade record created at enrollment, all fields
unset (backend, missing from the sources). -/
def emptyGrade : Grade :=
  { corte1 := none, corte2 := none, corte3 := none, final_grade := none }

/-- Modelled from the spec: `setCorte` of the Grade Record Store (backend, missing
from the sources): a value outside [0.0, 5.0] fails with `InvalidScore`, a
caller who does not own the course fails with `Forbidden`, otherwise the value is
stored and `final_grade` recomputed. -/
def setCorte (ownsCourse : Bool) (record : Grade) (cortIndex : CortIndex) (value : ℚ) :
    Except Failure Grade :=
  if value < 0 ∨ 5 < value then .error .InvalidScore
  else if !ownsCourse then .error .Forbidden
  else
    let stored : Grade :=
      match cortIndex with
      | .corte1 => { record with corte1 := some value }
      | .corte2 => { record with corte2 := some value }
      | .corte3 => { record with corte3 := some value }
    .ok { stored with final_grade := final_grade stored.corte1 stored.corte2 stored.corte3 }

/-- Modelled from the spec: the grade records the store can hold and serve to the
dashboard (backend, missing from the sources): the record created at enrollment,
and every record a successful `setCorte` returns. -/
inductive Served : Grade → Prop where
  | created : Served emptyGrade
  | updated (ownsCourse : Bool) (record : Grade) (cortIndex : CortIndex) (value : ℚ)
      (result : Grade) (h : Served record)
      (ok : setCorte ownsCourse record cortIndex value = .ok result) : Served result

end Engine

/-! ## Theorems -/

namespace F64

/-- The rounding reproduces binary64 on familiar values: `0.1 + 0.2` is
`0.30000000000000004` (`0x1.3333333333334p-2`), above the double `0.3`;
`2^53 + 1` is a tie and goes to the even neighbour `2^53`; and
`33.33 + 33.33` is the double `66.66`. -/
theorem add_examples :
    add (lit 1 1) (lit 2 1) = mkRat 0x13333333333334 (2 ^ 54)
    ∧ lit 3 1 < add (lit 1 1) (lit 2 1)
    ∧ round (2 ^ 53 + 1) = 2 ^ 53
    ∧ add (lit 3333 2) (lit 3333 2) = lit 6666 2 := by
  decide!

end F64

namespace StudentDashboard

/-- `calculateProgress` only tests its arguments against `null`: the scores
themselves never enter the computation. -/
theorem calculateProgress_isSome (c1 c2 c3 : Option ℚ) :
    calculateProgress c1 c2 c3 =
      calculateProgress (if c1.isSome then some 0 else none)
        (if c2.isSome then some 0 else none) (if c3.isSome then some 0 else none) := by
  cases c1 <;> cases c2 <;> cases c3 <;> simp [calculateProgress]

/-- The value of `calculateProgress` for each of the eight set/unset patterns,
evaluated in binary64 arithmetic. -/
theorem calculateProgress_table : ∀ b1 b2 b3 : Bool,
    calculateProgress (if b1 then some 0 else none) (if b2 then some 0 else none)
        (if b3 then some 0 else none) =
      match b1, b2, b3 with
      | false, false, false => 0
      | true, false, false => 33
      | false, true, false => 33
      | false, false, true => 33
      | true, true, false => 67
      | true, false, true => 67
      | false, true, true => 67
      | true, true, true => 100 := by
  decide!

/-- The reference definition for each of the eight set/unset patterns, evaluated
in exact arithmetic. -/
theorem progressReference_table : ∀ b1 b2 b3 : Bool,
    progressReference (if b1 then some 0 else none) (if b2 then some 0 else none)
        (if b3 then some 0 else none) =
      match b1, b2, b3 with
      | false, false, false => 0
      | true, false, false => 33
      | false, true, false => 33
      | false, false, true => 33
      | true, true, false => 67
      | true, false, true => 67
      | false, true, true => 67
      | true, true, true => 100 := by
  decide!

/-- The reference definition, too, only tests its arguments against `null`. -/
theorem progressReference_isSome (c1 c2 c3 : Option ℚ) :
    progressReference c1 c2 c3 =
      progressReference (if c1.isSome then some 0 else none)
        (if c2.isSome then some 0 else none) (if c3.isSome then some 0 else none) := by
  cases c1 <;> cases c2 <;> cases c3 <;> simp [progressReference]

/-- C1: `calculateProgress` depends only on how many of the three cortes are set
(non-null), never on which ones or on their scores: 0 with none set, 33 with
exactly one, 67 with exactly two, and exactly 100 with all three. -/
theorem calculateProgress_by_count (corte1 corte2 corte3 : Option ℚ) :
    calculateProgress corte1 corte2 corte3 =
      match ([corte1, corte2, corte3].filter (fun c => c ≠ none)).length with
      | 0 => 0
      | 1 => 33
      | 2 => 67
      | _ => 100 := by
  rw [calculateProgress_isSome, calculateProgress_table]
  cases corte1 <;> cases corte2 <;> cases corte3 <;> simp

/-- C2: `calculateProgress`, computed in double arithmetic, equals the reference
definition (the shares 33.33, 33.33 and 33.34 of the set cortes, summed exactly
and rounded to the nearest whole percent); the three shares sum to exactly 100,
both exactly and as doubles; and the result is a whole number between 0 and
100. -/
theorem calculateProgress_eq_reference (corte1 corte2 corte3 : Option ℚ) :
    calculateProgress corte1 corte2 corte3 = progressReference corte1 corte2 corte3
    ∧ F64.add (F64.add (F64.add 0 (F64.lit 3333 2)) (F64.lit 3333 2)) (F64.lit 3334 2) = 100
    ∧ (3333 / 100 + 3333 / 100 + 3334 / 100 : ℚ) = 100
    ∧ 0 ≤ calculateProgress corte1 corte2 corte3
    ∧ calculateProgress corte1 corte2 corte3 ≤ 100 := by
  refine ⟨?_, by decide!, by norm_num, ?_, ?_⟩
  · rw [calculateProgress_isSome, progressReference_isSome, calculateProgress_table,
      progressReference_table]
  · rw [calculateProgress_isSome, calculateProgress_table]
    cases corte1 <;> cases corte2 <;> cases corte3 <;> simp
  · rw [calculateProgress_isSome, calculateProgress_table]
    cases corte1 <;> cases corte2 <;> cases corte3 <;> simp

/-- C3: the result badge reads "Aprobado" exactly when `final_grade ≥ 3.0` and
"Reprobado" exactly when it is below, 3.0 itself being a pass; with `final_grade`
null no result is shown; and the final-grade badge has the variant of the result
badge, destructive exactly when `final_grade < 3.0`. -/
theorem resultBadge_pass_fail (c1 c2 c3 : Option ℚ) (x : ℚ) :
    (resultBadge ⟨c1, c2, c3, some x⟩ = some ⟨.default, .text "Aprobado"⟩ ↔ 3 ≤ x)
    ∧ (resultBadge ⟨c1, c2, c3, some x⟩ = some ⟨.destructive, .text "Reprobado"⟩ ↔ x < 3)
    ∧ resultBadge ⟨c1, c2, c3, some 3⟩ = some ⟨.default, .text "Aprobado"⟩
    ∧ resultBadge ⟨c1, c2, c3, none⟩ = none
    ∧ (resultBadge ⟨c1, c2, c3, some x⟩).map Badge.variant
        = some (finalGradeBadge ⟨c1, c2, c3, some x⟩).variant
    ∧ ((finalGradeBadge ⟨c1, c2, c3, some x⟩).variant = .destructive ↔ x < 3)
    ∧ finalGradeBadge ⟨c1, c2, c3, some x⟩
        = ⟨if 3 ≤ x then .default else .destructive, .number x⟩
    ∧ finalGradeBadge ⟨c1, c2, c3, none⟩ = ⟨.outline, .text "Pendiente"⟩ := by
  by_cases h : 3 ≤ x
  · have h' : ¬ x < 3 := not_lt.mpr h
    simp [resultBadge, finalGradeBadge, h, h']
  · have h' : x < 3 := not_le.mp h
    simp [resultBadge, finalGradeBadge, h, h']

end StudentDashboard

namespace Engine

open StudentDashboard

/-- What the store maintains on every record it serves: `final_grade` is the value
the engine computes from the three cortes, and every recorded corte lies in
[0.0, 5.0]. -/
theorem served_invariant (r : Grade) (h : Served r) :
    r.final_grade = final_grade r.corte1 r.corte2 r.corte3
    ∧ (∀ x, r.corte1 = some x → 0 ≤ x ∧ x ≤ 5)
    ∧ (∀ x, r.corte2 = some x → 0 ≤ x ∧ x ≤ 5)
    ∧ (∀ x, r.corte3 = some x → 0 ≤ x ∧ x ≤ 5) := by
  induction h with
  | created => simp [emptyGrade, final_grade]
  | updated ownsCourse record cortIndex value result _ ok ih =>
    obtain ⟨_, ih1, ih2, ih3⟩ := ih
    unfold setCorte at ok
    split_ifs at ok with hv ho
    have hv' : 0 ≤ value ∧ value ≤ 5 := by
      constructor
      · exact not_lt.mp (fun hlt => hv (Or.inl hlt))
      · exact not_lt.mp (fun hlt => hv (Or.inr hlt))
    cases cortIndex <;> simp only [Except.ok.injEq] at ok <;> subst ok <;>
      refine ⟨rfl, ?_, ?_, ?_⟩ <;> intro x hx <;>
      first
        | exact ih1 x hx
        | exact ih2 x hx
        | exact ih3 x hx
        | (simp only [Option.some.injEq] at hx; subst hx; exact hv')

/-- On a record the store serves, `final_grade` is set exactly when the three
cortes are. -/
theorem served_final_grade_iff (r : Grade) (h : Served r) :
    r.final_grade ≠ none ↔ (r.corte1 ≠ none ∧ r.corte2 ≠ none ∧ r.corte3 ≠ none) := by
  rw [(served_invariant r h).1]
  cases r.corte1 <;> cases r.corte2 <;> cases r.corte3 <;> simp [final_grade]

end Engine

namespace StudentDashboard

/-- The progress is 100 exactly when the three cortes are set. -/
theorem calculateProgress_eq_100_iff (c1 c2 c3 : Option ℚ) :
    calculateProgress c1 c2 c3 = 100 ↔ (c1 ≠ none ∧ c2 ≠ none ∧ c3 ≠ none) := by
  rw [calculateProgress_isSome, calculateProgress_table]
  cases c1 <;> cases c2 <;> cases c3 <;> simp

/-- The progress never exceeds 100. -/
theorem calculateProgress_le_100 (c1 c2 c3 : Option ℚ) :
    calculateProgress c1 c2 c3 ≤ 100 := by
  rw [calculateProgress_isSome, calculateProgress_table]
  cases c1 <;> cases c2 <;> cases c3 <;> simp

/-- C4: on every grade record the store serves to the dashboard, `final_grade`
is present if and only if corte1, corte2 and corte3 are all present; hence the
status reads "Completo" exactly when `calculateProgress` is 100 and
"En Progreso" exactly when it is below 100. -/
theorem served_status_iff_progress (r : Grade) (h : Engine.Served r) :
    (r.final_grade ≠ none ↔ (r.corte1 ≠ none ∧ r.corte2 ≠ none ∧ r.corte3 ≠ none))
    ∧ ((statusBadge r).child = .text "Completo" ↔ progressShown r = 100)
    ∧ ((statusBadge r).child = .text "En Progreso" ↔ progressShown r < 100) := by
  have hiff := Engine.served_final_grade_iff r h
  have h100 := calculateProgress_eq_100_iff r.corte1 r.corte2 r.corte3
  have hle := calculateProgress_le_100 r.corte1 r.corte2 r.corte3
  refine ⟨hiff, ?_, ?_⟩
  · unfold progressShown
    rw [h100, ← hiff]
    by_cases hf : r.final_grade = none <;> simp [statusBadge, hf]
  · unfold progressShown
    have hlt : calculateProgress r.corte1 r.corte2 r.corte3 < 100 ↔ r.final_grade = none := by
      rw [lt_iff_le_and_ne]
      constructor
      · intro hh
        by_contra hne
        exact hh.2 (h100.mpr (hiff.mp hne))
      · intro hnone
        refine ⟨hle, fun heq => ?_⟩
        exact (hiff.mpr (h100.mp heq)) hnone
    rw [hlt]
    by_cases hf : r.final_grade = none <;> simp [statusBadge, hf]

/-- The record after a teacher has set corte 1 to 4.0 is served, its final grade
is still unset and its status reads "En Progreso" at 33%. -/
theorem served_status_iff_progress_witness :
    Engine.Served ⟨some 4, none, none, none⟩
    ∧ ((statusBadge ⟨some 4, none, none, none⟩).child = .text "En Progreso"
        ↔ progressShown ⟨some 4, none, none, none⟩ < 100)
    ∧ progressShown ⟨some 4, none, none, none⟩ = 33 :=
  have hs : Engine.Served ⟨some 4, none, none, none⟩ :=
    Engine.Served.updated true Engine.emptyGrade .corte1 4 _ .created
      (by norm_num [Engine.setCorte, Engine.emptyGrade, Engine.final_grade])
  ⟨hs, (served_status_iff_progress _ hs).2.2, by decide!⟩

/-- C5: `unreadCount` is computed from the notification list: it is the number
of notifications whose `read` flag is false, it is at most the length of the
list, and the badge is shown (with that count) exactly when it is positive.
Replacing a notification by its read version lowers the count by one when the
notification was unread and leaves it unchanged when it was already read. -/
theorem unreadCount_derived (notifications before after : List Notification)
    (n : Notification) :
    unreadCount notifications = notifications.countP (fun m => m.read = false)
    ∧ 0 ≤ unreadCount notifications
    ∧ unreadCount notifications ≤ notifications.length
    ∧ (notificationBadge notifications = some (unreadCount notifications)
        ↔ 0 < unreadCount notifications)
    ∧ (notificationBadge notifications = none ↔ unreadCount notifications = 0)
    ∧ unreadCount (before ++ n :: after)
        = unreadCount (before ++ { n with read := true } :: after)
          + (if n.read = false then 1 else 0) := by
  refine ⟨?_, Nat.zero_le _, ?_, ?_, ?_, ?_⟩
  · unfold unreadCount
    rw [List.countP_eq_length_filter]
    congr 1
    apply List.filter_congr
    intro m _
    cases m.read <;> simp
  · exact List.length_filter_le _ _
  · unfold notificationBadge
    by_cases hpos : unreadCount notifications > 0 <;> simp [hpos]
  · unfold notificationBadge
    by_cases hpos : unreadCount notifications > 0 <;> simp [hpos]
    · omega
    · omega
  · unfold unreadCount
    cases hr : n.read <;> simp [List.filter_append, List.filter_cons, hr]
    omega

end StudentDashboard

namespace App

/-- C6: the `/dashboard` route is role-scoped: a teacher gets `TeacherDashboard`
and never `StudentDashboard`, a student gets `StudentDashboard` and never
`TeacherDashboard`, each for the authenticated user itself; with no user neither
dashboard is rendered and the route redirects to `/login`; and `/login` and
`/register` redirect to `/dashboard` if and only if a user is present. -/
theorem dashboard_route_role_scoped (id full_name : String) (user : Option User)
    (other : User) :
    routeElement (some ⟨id, "teacher", full_name⟩) .dashboard
        = .TeacherDashboard ⟨id, "teacher", full_name⟩
    ∧ routeElement (some ⟨id, "teacher", full_name⟩) .dashboard ≠ .StudentDashboard other
    ∧ routeElement (some ⟨id, "student", full_name⟩) .dashboard
        = .StudentDashboard ⟨id, "student", full_name⟩
    ∧ routeElement (some ⟨id, "student", full_name⟩) .dashboard ≠ .TeacherDashboard other
    ∧ routeElement none .dashboard = .Navigate "/login"
    ∧ routeElement none .dashboard ≠ .TeacherDashboard other
    ∧ routeElement none .dashboard ≠ .StudentDashboard other
    ∧ (routeElement user .login = .Navigate "/dashboard" ↔ user ≠ none)
    ∧ (routeElement user .register = .Navigate "/dashboard" ↔ user ≠ none)
    ∧ (routeElement user .login = .Login ↔ user = none)
    ∧ (routeElement user .register = .Register ↔ user = none) := by
  refine ⟨?_, ?_, ?_, ?_, ?_, ?_, ?_, ?_, ?_, ?_, ?_⟩ <;>
    cases user <;> simp [routeElement]

/-- C8: with a non-empty token stored, the request interceptor returns the
config with `headers.Authorization` equal to `"Bearer "` followed by exactly that
token, every other header and every other field unchanged; with no token, or an
empty one, it returns the config as it is. -/
theorem requestInterceptor_adds_token {ρ : Type} (token : String) (config : Config ρ)
    (key : String) :
    (token ≠ "" →
      (requestInterceptor (some token) config).headers "Authorization"
        = some ("Bearer " ++ token))
    ∧ (key ≠ "Authorization" →
      (requestInterceptor (some token) config).headers key = config.headers key)
    ∧ (requestInterceptor (some token) config).rest = config.rest
    ∧ requestInterceptor none config = config
    ∧ requestInterceptor (some "") config = config := by
  refine ⟨?_, ?_, ?_, ?_, ?_⟩
  · intro h
    simp [requestInterceptor, h]
  · intro hk
    by_cases h : token = ""
    · simp [requestInterceptor, h]
    · simp [requestInterceptor, h, Function.update, hk]
  · by_cases h : token = "" <;> simp [requestInterceptor, h]
  · rfl
  · simp [requestInterceptor]

/-- With the token `"abc"` stored, a request that carried an `Accept` header and
no `Authorization` gets `Authorization: Bearer abc` and keeps the rest. -/
theorem requestInterceptor_adds_token_witness :
    (requestInterceptor (some "abc")
        (⟨fun k => if k = "Accept" then some "application/json" else none,
          "/courses/student"⟩ : Config String)).headers "Authorization" = some "Bearer abc"
    ∧ (requestInterceptor (some "abc")
        (⟨fun k => if k = "Accept" then some "application/json" else none,
          "/courses/student"⟩ : Config String)).headers "Accept" = some "application/json" :=
  ⟨(requestInterceptor_adds_token "abc" _ "Accept").1 (by decide),
    ((requestInterceptor_adds_token "abc" _ "Accept").2.1 (by decide)).trans rfl⟩

end App

namespace StudentDashboard

/-- C7: a failed enrollment request ends in exactly one error toast, carrying the
server's detail text when there is a non-empty one and "Error al inscribirse"
otherwise, with no success toast, the dialog and the typed access code left as
they were and no reload of the course list; a successful one closes the dialog,
empties the access code and reloads the course list; either way `loading` ends as
false. -/
theorem handleEnroll_outcomes (s : State) (post : String → Except AxiosError Unit)
    (error : AxiosError) :
    (post s.accessCode = .error error →
      (handleEnroll s post).2
          = [.preventDefault, .post "/courses/enroll" s.accessCode,
              .toastError (orDefault error.detail "Error al inscribirse")]
      ∧ (∀ detail, error.detail = some detail → detail ≠ "" →
          Effect.toastError detail ∈ (handleEnroll s post).2)
      ∧ (error.detail = none ∨ error.detail = some "" →
          Effect.toastError "Error al inscribirse" ∈ (handleEnroll s post).2)
      ∧ (∀ message, Effect.toastSuccess message ∉ (handleEnroll s post).2)
      ∧ Effect.loadCourses ∉ (handleEnroll s post).2
      ∧ (handleEnroll s post).1.enrollDialogOpen = s.enrollDialogOpen
      ∧ (handleEnroll s post).1.accessCode = s.accessCode
      ∧ (handleEnroll s post).1.loading = false)
    ∧ (post s.accessCode = .ok () →
      (handleEnroll s post).2
          = [.preventDefault, .post "/courses/enroll" s.accessCode,
              .toastSuccess "Inscripción exitosa", .loadCourses]
      ∧ (∀ message, Effect.toastError message ∉ (handleEnroll s post).2)
      ∧ (handleEnroll s post).1.enrollDialogOpen = false
      ∧ (handleEnroll s post).1.accessCode = ""
      ∧ (handleEnroll s post).1.loading = false) := by
  constructor
  · intro h
    refine ⟨?_, ?_, ?_, ?_, ?_, ?_, ?_, ?_⟩
    · simp [handleEnroll, h]
    · intro detail hd hne
      simp [handleEnroll, h, hd, orDefault, hne]
    · rintro (hd | hd) <;> simp [handleEnroll, h, hd, orDefault]
    · intro message
      simp [handleEnroll, h]
    · simp [handleEnroll, h]
    · simp [handleEnroll, h]
    · simp [handleEnroll, h]
    · simp [handleEnroll, h]
  · intro h
    refine ⟨?_, ?_, ?_, ?_, ?_⟩
    · simp [handleEnroll, h]
    · intro message
      simp [handleEnroll, h]
    · simp [handleEnroll, h]
    · simp [handleEnroll, h]
    · simp [handleEnroll, h]

/-- A rejected enrollment whose response carries the detail
"Código de acceso inválido": the toast shows that text, and the dialog stays open
with the code still typed. -/
theorem handleEnroll_outcomes_witness :
    (handleEnroll ⟨false, true, "zzz"⟩
        (fun _ => .error ⟨some ⟨some ⟨some "Código de acceso inválido"⟩⟩⟩)).2
      = [.preventDefault, .post "/courses/enroll" "zzz",
          .toastError "Código de acceso inválido"]
    ∧ (handleEnroll ⟨false, true, "zzz"⟩
        (fun _ => .error ⟨some ⟨some ⟨some "Código de acceso inválido"⟩⟩⟩)).1
      = ⟨false, true, "zzz"⟩ :=
  have h := (handleEnroll_outcomes ⟨false, true, "zzz"⟩
    (fun _ => .error ⟨some ⟨some ⟨some "Código de acceso inválido"⟩⟩⟩)
    ⟨some ⟨some ⟨some "Código de acceso inválido"⟩⟩⟩).1 rfl
  ⟨h.1.trans (by decide), by decide⟩

end StudentDashboard

namespace Engine

open StudentDashboard

/-- Rounding half up to one decimal place stays within [0, 5] on [0, 5], yields a
whole number of tenths, and moves its argument by at most half a tenth, a tie
going up. -/
theorem round1_spec (x : ℚ) (h0 : 0 ≤ x) (h5 : x ≤ 5) :
    0 ≤ round1 x ∧ round1 x ≤ 5 ∧ (∃ k : ℤ, round1 x = k / 10)
    ∧ x - 1 / 20 < round1 x ∧ round1 x ≤ x + 1 / 20 := by
  unfold round1
  have hle : ((⌊x * 10 + 1 / 2⌋ : ℤ) : ℚ) ≤ x * 10 + 1 / 2 := Int.floor_le _
  have hlt : x * 10 + 1 / 2 < ((⌊x * 10 + 1 / 2⌋ : ℤ) : ℚ) + 1 := Int.lt_floor_add_one _
  have hnn : (0 : ℤ) ≤ ⌊x * 10 + 1 / 2⌋ := Int.floor_nonneg.mpr (by linarith)
  have h50 : ⌊x * 10 + 1 / 2⌋ ≤ (50 : ℤ) := by
    have : ⌊x * 10 + 1 / 2⌋ < (51 : ℤ) := Int.floor_lt.mpr (by push_cast; linarith)
    omega
  have hnn' : (0 : ℚ) ≤ ((⌊x * 10 + 1 / 2⌋ : ℤ) : ℚ) := by exact_mod_cast hnn
  have h50' : ((⌊x * 10 + 1 / 2⌋ : ℤ) : ℚ) ≤ 50 := by exact_mod_cast h50
  refine ⟨?_, ?_, ⟨_, rfl⟩, ?_, ?_⟩
  · positivity
  · linarith
  · linarith
  · linarith

/-- Every triple of valid scores is recorded in some served record: three
successful `setCorte` calls on the record created at enrollment. -/
theorem served_of_valid (c1 c2 c3 : ℚ) (h1 : 0 ≤ c1 ∧ c1 ≤ 5) (h2 : 0 ≤ c2 ∧ c2 ≤ 5)
    (h3 : 0 ≤ c3 ∧ c3 ≤ 5) :
    Served ⟨some c1, some c2, some c3, final_grade (some c1) (some c2) (some c3)⟩ := by
  have s1 : Served ⟨some c1, none, none, none⟩ :=
    Served.updated true emptyGrade .corte1 c1 _ .created
      (by simp [setCorte, emptyGrade, final_grade, not_lt.mpr h1.1, not_lt.mpr h1.2])
  have s2 : Served ⟨some c1, some c2, none, none⟩ :=
    Served.updated true _ .corte2 c2 _ s1
      (by simp [setCorte, final_grade, not_lt.mpr h2.1, not_lt.mpr h2.2])
  exact Served.updated true _ .corte3 c3 _ s2
    (by simp [setCorte, not_lt.mpr h3.1, not_lt.mpr h3.2])

end Engine

namespace StudentDashboard

/-- C9: for all valid scores (c1, c2, c3) in [0.0, 5.0], a record holding them is
served, every served record holding them shows as its final grade
`0.30·c1 + 0.35·c2 + 0.35·c3` rounded half up to one decimal place, that value
lies in [0.0, 5.0], and the weights the dashboard labels the cortes with are 30,
35 and 35 percent, 100 in total. -/
theorem final_grade_shown (c1 c2 c3 : ℚ) (h1 : 0 ≤ c1 ∧ c1 ≤ 5) (h2 : 0 ≤ c2 ∧ c2 ≤ 5)
    (h3 : 0 ≤ c3 ∧ c3 ≤ 5) :
    (∃ r, Engine.Served r ∧ r.corte1 = some c1 ∧ r.corte2 = some c2 ∧ r.corte3 = some c3)
    ∧ (∀ r, Engine.Served r → r.corte1 = some c1 → r.corte2 = some c2 → r.corte3 = some c3 →
        (finalGradeBadge r).child
          = .number (Engine.round1 (0.30 * c1 + 0.35 * c2 + 0.35 * c3)))
    ∧ 0 ≤ Engine.round1 (0.30 * c1 + 0.35 * c2 + 0.35 * c3)
    ∧ Engine.round1 (0.30 * c1 + 0.35 * c2 + 0.35 * c3) ≤ 5
    ∧ (∃ k : ℤ, Engine.round1 (0.30 * c1 + 0.35 * c2 + 0.35 * c3) = k / 10)
    ∧ 0.30 * c1 + 0.35 * c2 + 0.35 * c3 - 1 / 20
        < Engine.round1 (0.30 * c1 + 0.35 * c2 + 0.35 * c3)
    ∧ Engine.round1 (0.30 * c1 + 0.35 * c2 + 0.35 * c3)
        ≤ 0.30 * c1 + 0.35 * c2 + 0.35 * c3 + 1 / 20
    ∧ corteLabels.map labelledWeight = [30, 35, 35]
    ∧ (corteLabels.map labelledWeight).sum = 100 := by
  obtain ⟨h1a, h1b⟩ := h1
  obtain ⟨h2a, h2b⟩ := h2
  obtain ⟨h3a, h3b⟩ := h3
  have hx0 : 0 ≤ 0.30 * c1 + 0.35 * c2 + 0.35 * c3 := by norm_num; positivity
  have hx5 : 0.30 * c1 + 0.35 * c2 + 0.35 * c3 ≤ 5 := by norm_num; linarith
  obtain ⟨r0, r5, rk, rlo, rhi⟩ := Engine.round1_spec _ hx0 hx5
  refine ⟨⟨_, Engine.served_of_valid c1 c2 c3 ⟨h1a, h1b⟩ ⟨h2a, h2b⟩ ⟨h3a, h3b⟩, rfl, rfl, rfl⟩,
    ?_, r0, r5, rk, rlo, rhi, by decide, by decide⟩
  intro r hr e1 e2 e3
  have hf := (Engine.served_invariant r hr).1
  rw [e1, e2, e3] at hf
  have harg : c1 * (30 / 100) + c2 * (35 / 100) + c3 * (35 / 100)
      = 0.30 * c1 + 0.35 * c2 + 0.35 * c3 := by norm_num; ring
  simp only [Engine.final_grade, harg] at hf
  simp only [finalGradeBadge, hf]

/-- The end-to-end example of the specification: cortes 4.0, 3.5 and 4.5 give the
final grade 4.0. -/
theorem final_grade_shown_witness :
    ((0 : ℚ) ≤ 4 ∧ (4 : ℚ) ≤ 5) ∧ ((0 : ℚ) ≤ 7 / 2 ∧ (7 / 2 : ℚ) ≤ 5)
    ∧ ((0 : ℚ) ≤ 9 / 2 ∧ (9 / 2 : ℚ) ≤ 5)
    ∧ Engine.round1 (0.30 * 4 + 0.35 * (7 / 2) + 0.35 * (9 / 2)) ≤ 5
    ∧ Engine.round1 (0.30 * 4 + 0.35 * (7 / 2) + 0.35 * (9 / 2)) = 4 :=
  ⟨by norm_num, by norm_num, by norm_num,
    (final_grade_shown 4 (7 / 2) (9 / 2) (by norm_num) (by norm_num) (by norm_num)).2.2.2.1,
    by
      have h : (0.30 * 4 + 0.35 * (7 / 2) + 0.35 * (9 / 2) : ℚ) = 4 := by norm_num
      rw [h]
      decide!⟩

/-- C10: a score of 0 counts as set: a corte equal to 0 contributes to
`calculateProgress` what any other score does (strictly more than null), is
counted among the "Cortes evaluados" and is displayed as the number 0 with the
default badge; a final grade of 0 is shown as "Completo" with the result
"Reprobado". Only null is treated as unset: "Pendiente", "En Progreso" and the
missing result row appear exactly for null. -/
theorem zero_counts_as_set (c1 c2 c3 f : Option ℚ) (x : ℚ) (grade : Grade) :
    (calculateProgress (some 0) c2 c3 = calculateProgress (some x) c2 c3
      ∧ calculateProgress none c2 c3 < calculateProgress (some 0) c2 c3)
    ∧ (calculateProgress c1 (some 0) c3 = calculateProgress c1 (some x) c3
      ∧ calculateProgress c1 none c3 < calculateProgress c1 (some 0) c3)
    ∧ (calculateProgress c1 c2 (some 0) = calculateProgress c1 c2 (some x)
      ∧ calculateProgress c1 c2 none < calculateProgress c1 c2 (some 0))
    ∧ evaluatedCount ⟨some 0, c2, c3, f⟩ = evaluatedCount ⟨none, c2, c3, f⟩ + 1
    ∧ evaluatedCount ⟨c1, some 0, c3, f⟩ = evaluatedCount ⟨c1, none, c3, f⟩ + 1
    ∧ evaluatedCount ⟨c1, c2, some 0, f⟩ = evaluatedCount ⟨c1, c2, none, f⟩ + 1
    ∧ corte1Badge ⟨some 0, c2, c3, f⟩ = ⟨.default, .number 0⟩
    ∧ corte2Badge ⟨c1, some 0, c3, f⟩ = ⟨.default, .number 0⟩
    ∧ corte3Badge ⟨c1, c2, some 0, f⟩ = ⟨.default, .number 0⟩
    ∧ statusBadge ⟨c1, c2, c3, some 0⟩ = ⟨.default, .text "Completo"⟩
    ∧ resultBadge ⟨c1, c2, c3, some 0⟩ = some ⟨.destructive, .text "Reprobado"⟩
    ∧ finalGradeBadge ⟨c1, c2, c3, some 0⟩ = ⟨.destructive, .number 0⟩
    ∧ ((corte1Badge grade).child = .text "Pendiente" ↔ grade.corte1 = none)
    ∧ ((corte2Badge grade).child = .text "Pendiente" ↔ grade.corte2 = none)
    ∧ ((corte3Badge grade).child = .text "Pendiente" ↔ grade.corte3 = none)
    ∧ ((finalGradeBadge grade).child = .text "Pendiente" ↔ grade.final_grade = none)
    ∧ ((statusBadge grade).child = .text "En Progreso" ↔ grade.final_grade = none)
    ∧ (resultBadge grade = none ↔ grade.final_grade = none) := by
  refine ⟨⟨?_, ?_⟩, ⟨?_, ?_⟩, ⟨?_, ?_⟩, ?_, ?_, ?_, ?_, ?_, ?_, ?_, ?_, ?_, ?_, ?_, ?_, ?_, ?_, ?_⟩
  · rw [calculateProgress_isSome (some 0), calculateProgress_isSome (some x)]
    rfl
  · rw [calculateProgress_isSome none, calculateProgress_isSome (some 0),
      calculateProgress_table, calculateProgress_table]
    cases c2 <;> cases c3 <;> simp
  · rw [calculateProgress_isSome c1 (some 0), calculateProgress_isSome c1 (some x)]
    rfl
  · rw [calculateProgress_isSome c1 none, calculateProgress_isSome c1 (some 0),
      calculateProgress_table, calculateProgress_table]
    cases c1 <;> cases c3 <;> simp
  · rw [calculateProgress_isSome c1 c2 (some 0), calculateProgress_isSome c1 c2 (some x)]
    rfl
  · rw [calculateProgress_isSome c1 c2 none, calculateProgress_isSome c1 c2 (some 0),
      calculateProgress_table, calculateProgress_table]
    cases c1 <;> cases c2 <;> simp
  · cases c2 <;> cases c3 <;> simp [evaluatedCount]
  · cases c1 <;> cases c3 <;> simp [evaluatedCount]
  · cases c1 <;> cases c2 <;> simp [evaluatedCount]
  · simp [corte1Badge]
  · simp [corte2Badge]
  · simp [corte3Badge]
  · simp [statusBadge]
  · simp [resultBadge]
  · simp [finalGradeBadge]
  · cases h : grade.corte1 <;> simp [corte1Badge, h]
  · cases h : grade.corte2 <;> simp [corte2Badge, h]
  · cases h : grade.corte3 <;> simp [corte3Badge, h]
  · cases h : grade.final_grade <;> simp [finalGradeBadge, h]
  · cases h : grade.final_grade <;> simp [statusBadge, h]
  · cases h : grade.final_grade <;> simp [resultBadge, h]

end StudentDashboard

namespace StudentDashboard

/-- C11: `calculateProgress` is monotone in the set of recorded cortes: setting a
corte that was unset (null) strictly increases the progress, whichever corte it
is and whatever the score; changing the score of a corte that is already set
leaves the progress unchanged; and a record with at least the cortes of another
set has at least its progress. -/
theorem calculateProgress_monotone (c1 c2 c3 d1 d2 d3 : Option ℚ) (x y : ℚ) :
    calculateProgress none c2 c3 < calculateProgress (some x) c2 c3
    ∧ calculateProgress c1 none c3 < calculateProgress c1 (some x) c3
    ∧ calculateProgress c1 c2 none < calculateProgress c1 c2 (some x)
    ∧ calculateProgress (some x) c2 c3 = calculateProgress (some y) c2 c3
    ∧ calculateProgress c1 (some x) c3 = calculateProgress c1 (some y) c3
    ∧ calculateProgress c1 c2 (some x) = calculateProgress c1 c2 (some y)
    ∧ ((c1 ≠ none → d1 ≠ none) → (c2 ≠ none → d2 ≠ none) → (c3 ≠ none → d3 ≠ none) →
        calculateProgress c1 c2 c3 ≤ calculateProgress d1 d2 d3) := by
  refine ⟨?_, ?_, ?_, ?_, ?_, ?_, ?_⟩
  · rw [calculateProgress_isSome none, calculateProgress_isSome (some x),
      calculateProgress_table, calculateProgress_table]
    cases c2 <;> cases c3 <;> simp
  · rw [calculateProgress_isSome c1 none, calculateProgress_isSome c1 (some x),
      calculateProgress_table, calculateProgress_table]
    cases c1 <;> cases c3 <;> simp
  · rw [calculateProgress_isSome c1 c2 none, calculateProgress_isSome c1 c2 (some x),
      calculateProgress_table, calculateProgress_table]
    cases c1 <;> cases c2 <;> simp
  · rw [calculateProgress_isSome (some x), calculateProgress_isSome (some y)]
    rfl
  · rw [calculateProgress_isSome c1 (some x), calculateProgress_isSome c1 (some y)]
    rfl
  · rw [calculateProgress_isSome c1 c2 (some x), calculateProgress_isSome c1 c2 (some y)]
    rfl
  · intro h1 h2 h3
    rw [calculateProgress_isSome c1, calculateProgress_isSome d1,
      calculateProgress_table, calculateProgress_table]
    cases c1 <;> cases c2 <;> cases c3 <;> cases d1 <;> cases d2 <;> cases d3 <;>
      simp at h1 h2 h3 ⊢

/-- Recording corte 2 on a record that held only corte 1 raises the progress from
33 to 67; correcting corte 1 from 4.0 to 2.5 leaves it at 33. -/
theorem calculateProgress_monotone_examples :
    calculateProgress (some 4) none none = 33
    ∧ calculateProgress (some 4) (some (7 / 2)) none = 67
    ∧ calculateProgress (some (5 / 2)) none none = 33 := by
  decide!

end StudentDashboard
